import Mathlib

/-!
Shallow embedding of the adrf async-compatibility layer (adrf/serializers.py
and adrf/mixins.py) together with proofs about its behaviour.

Modelling conventions:
* Python runtime values are modelled by the inductive type `Val`; opaque
  objects (model instances, related objects) are `Val.obj n`.
* Python exceptions are modelled by `PyErr` carried in `Except`.
* Whether a call awaited an async-native method or offloaded the synchronous
  method through `sync_to_async` is recorded by an explicit `CallPath` tag,
  so theorems can speak about which code path a call took.
* Runtime-reflection facts (hasattr, iscoroutinefunction, isinstance of
  AsyncPropertyDescriptor, ...) are fields of the structures that stand for
  the inspected Python objects.
-/

namespace Adrf

/-- Python runtime values, as far as the embedded code inspects them. -/
inductive Val where
  | none
  | bool (b : Bool)
  | int (n : Int)
  | str (s : String)
  | obj (n : Nat)
  deriving Repr, DecidableEq

/-- Python exceptions raised by the embedded code. -/
inductive PyErr where
  | assertionError (msg : String)
  | attributeError
  | skipField
  | relatedObjectDoesNotExist (msg : String)
  | notImplementedError
  deriving Repr, DecidableEq

deriving instance DecidableEq for Except

/-- Which concrete code path produced a value: awaiting the async-native
method, or running the synchronous method through `sync_to_async`. -/
inductive CallPath where
  | asyncNative
  | syncOffload
  deriving Repr, DecidableEq

/-! ## Capability-detection shims (adrf/serializers.py lines 136-167)

A serializer object, as inspected by `has_adata` / `has_asave` /
`serializer_adata` / `serializer_asave`:
* `hasAdataAttr` is `hasattr(obj, "adata")`;
* `classAdata` is `getattr(obj.__class__, "adata")`: `Option.none` when the
  class has no `adata` attribute, `some b` when it has one and `b` says
  whether it is an `AsyncPropertyDescriptor`;
* `adataValue` is the value of awaiting `obj.adata`, `dataValue` the value
  of `obj.data`;
* `asaveIsCoroutine` is `asyncio.iscoroutinefunction(getattr(obj, "asave", None))`;
* `asaveResult` / `saveResult` give the value of `obj.asave(**kwargs)` /
  `obj.save(**kwargs)` on given keyword arguments. -/
structure SerializerShim where
  hasAdataAttr : Bool
  classAdata : Option Bool
  adataValue : Val
  dataValue : Val
  asaveIsCoroutine : Bool
  asaveResult : List (String × Val) → Val
  saveResult : List (String × Val) → Val

/-- Embeds `has_adata` (serializers.py lines 136-141): when the object has an
`adata` attribute, assert that the class attribute is an
`AsyncPropertyDescriptor` and answer true; otherwise answer false.
`getattr(obj.__class__, "adata")` raises AttributeError when absent, and a
failing `assert isinstance(...)` raises AssertionError. -/
def has_adata (s : SerializerShim) : Except PyErr Bool :=
  if s.hasAdataAttr then
    match s.classAdata with
    | Option.none => Except.error PyErr.attributeError
    | Option.some isDescriptor =>
      if isDescriptor then Except.ok true
      else Except.error (PyErr.assertionError "adata is not an AsyncPropertyDescriptor")
  else Except.ok false

/-- Embeds `has_asave` (serializers.py lines 148-149):
`asyncio.iscoroutinefunction(getattr(obj, "asave", None))`. -/
def has_asave (s : SerializerShim) : Bool :=
  s.asaveIsCoroutine

/-- Embeds `serializer_adata` (serializers.py lines 152-158): await
`serializer.adata` when `has_adata`, else `sync_to_async(lambda: serializer.data)()`. -/
def serializer_adata (s : SerializerShim) : Except PyErr (CallPath × Val) :=
  match has_adata s with
  | Except.error e => Except.error e
  | Except.ok true => Except.ok (CallPath.asyncNative, s.adataValue)
  | Except.ok false => Except.ok (CallPath.syncOffload, s.dataValue)

/-- Embeds `serializer_asave` (serializers.py lines 161-167): await
`serializer.asave(**kwargs)` when `has_asave`, else
`sync_to_async(serializer.save)(**kwargs)`. -/
def serializer_asave (s : SerializerShim) (kwargs : List (String × Val)) : CallPath × Val :=
  if has_asave s then (CallPath.asyncNative, s.asaveResult kwargs)
  else (CallPath.syncOffload, s.saveResult kwargs)

/-- Serializer whose class defines `adata` as a plain (non-async-property)
attribute: `hasattr` is true but the class attribute is not an
`AsyncPropertyDescriptor`. -/
def c1shimPlainAdata : SerializerShim :=
  { hasAdataAttr := true
    classAdata := Option.some false
    adataValue := Val.int 1
    dataValue := Val.int 2
    asaveIsCoroutine := false
    asaveResult := fun _ => Val.int 3
    saveResult := fun _ => Val.int 4 }

/-- Serializer whose class defines `adata` as an async-property descriptor. -/
def c1shimAsync : SerializerShim :=
  { hasAdataAttr := true
    classAdata := Option.some true
    adataValue := Val.int 1
    dataValue := Val.int 2
    asaveIsCoroutine := true
    asaveResult := fun _ => Val.int 3
    saveResult := fun _ => Val.int 4 }

/-- Serializer with no `adata` attribute at all and a synchronous `save`. -/
def c1shimNoAdata : SerializerShim :=
  { hasAdataAttr := false
    classAdata := Option.none
    adataValue := Val.int 1
    dataValue := Val.int 2
    asaveIsCoroutine := false
    asaveResult := fun _ => Val.int 3
    saveResult := fun _ => Val.int 4 }

/-- C1 counterexample: the claim says that whenever the serializer class does
not define `adata` as an async-property descriptor, `serializer_adata`
returns `s.data` through `sync_to_async`.  On a serializer whose class
defines `adata` as a plain attribute, the code instead raises
AssertionError (from the `assert isinstance(...)` inside `has_adata`) and
never falls back to `s.data`. -/
theorem c1_serializer_shims_cex :
    c1shimPlainAdata.classAdata ≠ Option.some true ∧
      serializer_adata c1shimPlainAdata ≠
        Except.ok (CallPath.syncOffload, c1shimPlainAdata.dataValue) ∧
      serializer_adata c1shimPlainAdata =
        Except.error (PyErr.assertionError "adata is not an AsyncPropertyDescriptor") := by
  have h : serializer_adata c1shimPlainAdata =
      Except.error (PyErr.assertionError "adata is not an AsyncPropertyDescriptor") := rfl
  exact ⟨by decide, by simp [h], h⟩

/-- C1 (amended): `serializer_adata s` awaits `s.adata` when the class of `s`
defines `adata` as an async-property descriptor, returns `s.data` through
`sync_to_async` when `s` has no `adata` attribute, and raises AssertionError
when `s` has an `adata` attribute whose class attribute is not an
async-property descriptor; `serializer_asave s` awaits `s.asave(**kwargs)`
exactly when `s.asave` is a coroutine function and otherwise calls
`s.save(**kwargs)` through `sync_to_async`. -/
theorem c1_serializer_shims (s : SerializerShim) (kwargs : List (String × Val)) :
    (s.hasAdataAttr = true → s.classAdata = Option.some true →
      serializer_adata s = Except.ok (CallPath.asyncNative, s.adataValue)) ∧
    (s.hasAdataAttr = false →
      serializer_adata s = Except.ok (CallPath.syncOffload, s.dataValue)) ∧
    (s.hasAdataAttr = true → s.classAdata = Option.some false →
      serializer_adata s =
        Except.error (PyErr.assertionError "adata is not an AsyncPropertyDescriptor")) ∧
    serializer_asave s kwargs =
      (if s.asaveIsCoroutine then (CallPath.asyncNative, s.asaveResult kwargs)
       else (CallPath.syncOffload, s.saveResult kwargs)) := by
  refine ⟨?_, ?_, ?_, ?_⟩
  · intro h1 h2
    simp [serializer_adata, has_adata, h1, h2]
  · intro h1
    simp [serializer_adata, has_adata, h1]
  · intro h1 h2
    simp [serializer_adata, has_adata, h1, h2]
  · simp [serializer_asave, has_asave]

/-- C1 witness: the amended theorem applied to concrete serializers covering
the async-native path, the fallback path, and both save dispatches. -/
theorem c1_serializer_shims_witness :
    serializer_adata c1shimAsync = Except.ok (CallPath.asyncNative, Val.int 1) ∧
    serializer_adata c1shimNoAdata = Except.ok (CallPath.syncOffload, Val.int 2) ∧
    serializer_asave c1shimAsync [] = (CallPath.asyncNative, Val.int 3) ∧
    serializer_asave c1shimNoAdata [] = (CallPath.syncOffload, Val.int 4) := by
  refine ⟨(c1_serializer_shims c1shimAsync []).1 rfl rfl,
          (c1_serializer_shims c1shimNoAdata []).2.1 rfl, ?_, ?_⟩
  · have h := (c1_serializer_shims c1shimAsync []).2.2.2
    simpa [c1shimAsync] using h
  · have h := (c1_serializer_shims c1shimNoAdata []).2.2.2
    simpa [c1shimNoAdata] using h

/-! ## Relation-descriptor bypass: get_model_field_value
(adrf/serializers.py lines 274-344) -/

/-- Kind of the descriptor found at `getattr(instance.__class__, field.source)`,
as tested by the chain of `isinstance` checks in `get_model_field_value`.
`ReverseManyToOneDescriptor` also covers `ManyToManyDescriptor` (a subclass);
`forwardManyToOne` also covers `ForwardOneToOneDescriptor`. -/
inductive DescKind where
  | forwardManyToOne
  | reverseOneToOne
  | reverseManyToOne
  | other
  deriving Repr, DecidableEq

/-- Everything `get_model_field_value(instance, field)` inspects about the
instance, the serializer field and the class-level descriptor:
* `isRelatedField` / `usePkOnlyOptimization`: the first guard;
* `getAttributeResult`: `field.get_attribute(instance)` (it may raise SkipField);
* `descHasIsCached`: `hasattr(descriptor, "is_cached")`;
* `isCached`: `descriptor.is_cached(instance)`;
* `descKind`: which descriptor class the attribute is an instance of;
* `localRelatedHasNone`: `None in descriptor.field.get_local_related_value(instance)`;
* `fieldNull`: `descriptor.field.null`;
* `agetResult`: result of the forward `qs.aget(...)` (`Option.none` means it
  raised `RelatedObjectDoesNotExist`);
* `instancePkIsNone`: `instance.pk is None`;
* `revAgetResult`: result of the reverse `descriptor.get_queryset(...).aget(...)`
  (`Option.none` means it raised `DoesNotExist`);
* the remaining strings feed the exception messages. -/
structure FieldCtx where
  isRelatedField : Bool
  usePkOnlyOptimization : Bool
  getAttributeResult : Except PyErr Val
  descHasIsCached : Bool
  isCached : Bool
  descKind : DescKind
  localRelatedHasNone : Bool
  fieldNull : Bool
  agetResult : Option Val
  instancePkIsNone : Bool
  revAgetResult : Option Val
  fieldModelName : String
  fieldName : String
  instanceClassName : String
  accessorName : String
  deriving Repr, DecidableEq

/-- How the value returned by `get_model_field_value` was obtained:
a direct (non-offloaded) call of `field.get_attribute`, an awaited
asynchronous `aget` database fetch, `field.get_attribute` offloaded through
`sync_to_async`, or no fetch at all (the early `return None` and the raising
branches that never touch the database). -/
inductive FetchPath where
  | directGetAttribute
  | asyncAget
  | syncOffloadGetAttribute
  | noFetch
  deriving Repr, DecidableEq

/-- Side effects of `get_model_field_value` on the instance and the related
object:
* `setattrValue`: the forward branch runs `setattr(instance, field.source, val)`;
* `cachedOnRelObj`: the reverse branch runs
  `descriptor.related.field.set_cached_value(rel_obj, instance)`;
* `revCachedOnInstance`: the reverse branch runs
  `descriptor.related.set_cached_value(instance, rel_obj)` with `rel_obj`
  possibly `None`. -/
structure FieldEffects where
  setattrValue : Option Val := Option.none
  cachedOnRelObj : Bool := false
  revCachedOnInstance : Option (Option Val) := Option.none
  deriving Repr, DecidableEq

/-- Result of `get_model_field_value`: the returned value or raised
exception, the fetch path taken, and the side effects performed (side effects
happen even on the raising branches, so they sit beside the `Except`). -/
structure FieldOut where
  result : Except PyErr Val
  path : FetchPath
  effects : FieldEffects
  deriving Repr, DecidableEq

/-- Embeds `get_model_field_value` (serializers.py lines 274-344). -/
def get_model_field_value (c : FieldCtx) : FieldOut :=
  if c.isRelatedField && c.usePkOnlyOptimization then
    { result := c.getAttributeResult, path := FetchPath.directGetAttribute, effects := {} }
  else if !c.descHasIsCached || c.isCached then
    { result := c.getAttributeResult, path := FetchPath.directGetAttribute, effects := {} }
  else
    match c.descKind with
    | DescKind.forwardManyToOne =>
      if !c.localRelatedHasNone then
        match c.agetResult with
        | Option.some val =>
          { result := Except.ok val
            path := FetchPath.asyncAget
            effects := { setattrValue := Option.some val } }
        | Option.none =>
          { result := Except.error (PyErr.relatedObjectDoesNotExist
              (c.fieldModelName ++ " has no " ++ c.fieldName ++ "."))
            path := FetchPath.asyncAget
            effects := {} }
      else if c.fieldNull then
        { result := Except.ok Val.none, path := FetchPath.noFetch, effects := {} }
      else
        { result := Except.error (PyErr.relatedObjectDoesNotExist
            (c.fieldModelName ++ " has no " ++ c.fieldName ++ "."))
          path := FetchPath.noFetch
          effects := {} }
    | DescKind.reverseOneToOne =>
      if c.instancePkIsNone then
        { result := Except.error (PyErr.relatedObjectDoesNotExist
            (c.instanceClassName ++ " has no " ++ c.accessorName ++ "."))
          path := FetchPath.noFetch
          effects := { revCachedOnInstance := Option.some Option.none } }
      else
        match c.revAgetResult with
        | Option.some relObj =>
          { result := Except.ok relObj
            path := FetchPath.asyncAget
            effects := { cachedOnRelObj := true
                         revCachedOnInstance := Option.some (Option.some relObj) } }
        | Option.none =>
          { result := Except.error (PyErr.relatedObjectDoesNotExist
              (c.instanceClassName ++ " has no " ++ c.accessorName ++ "."))
            path := FetchPath.asyncAget
            effects := { revCachedOnInstance := Option.some Option.none } }
    | DescKind.reverseManyToOne =>
      { result := c.getAttributeResult, path := FetchPath.directGetAttribute, effects := {} }
    | DescKind.other =>
      { result := c.getAttributeResult, path := FetchPath.syncOffloadGetAttribute, effects := {} }

/-- Field context on the pk-only-optimization path: a related field read
directly, with a cached forward descriptor context behind it. -/
def c2ctxDirect : FieldCtx :=
  { isRelatedField := true
    usePkOnlyOptimization := true
    getAttributeResult := Except.ok (Val.int 7)
    descHasIsCached := true
    isCached := false
    descKind := DescKind.forwardManyToOne
    localRelatedHasNone := false
    fieldNull := false
    agetResult := Option.some (Val.obj 5)
    instancePkIsNone := false
    revAgetResult := Option.none
    fieldModelName := "Order"
    fieldName := "customer"
    instanceClassName := "Order"
    accessorName := "invoice" }

/-- Field context reaching the uncached forward-descriptor branch with a
successful `aget`. -/
def c2ctxForward : FieldCtx :=
  { c2ctxDirect with isRelatedField := false, usePkOnlyOptimization := false }

/-- Field context for an uncached nullable forward descriptor whose local
related value contains `None`. -/
def c4ctxNullForward : FieldCtx :=
  { c2ctxForward with localRelatedHasNone := true, fieldNull := true }

/-- Field context for an uncached reverse one-to-one descriptor whose `aget`
finds the related object. -/
def c4ctxReverse : FieldCtx :=
  { c2ctxForward with
    descKind := DescKind.reverseOneToOne
    revAgetResult := Option.some (Val.obj 9) }

/-- C2: `get_model_field_value` reads the attribute directly with
`field.get_attribute` (no asynchronous fetch, no side effect) whenever the
field is a `RelatedField` using the pk-only optimization, or the descriptor
has no `is_cached` method, or `is_cached(instance)` is true; and on an
uncached `ForwardManyToOneDescriptor` whose local related value contains no
`None`, a successful awaited `aget` yields the fetched value, which is also
stored on the instance via `setattr`. -/
theorem c2_get_model_field_value (c : FieldCtx) :
    ((c.isRelatedField = true ∧ c.usePkOnlyOptimization = true) ∨
        c.descHasIsCached = false ∨ c.isCached = true →
      get_model_field_value c =
        { result := c.getAttributeResult
          path := FetchPath.directGetAttribute
          effects := {} }) ∧
    (¬(c.isRelatedField = true ∧ c.usePkOnlyOptimization = true) →
      c.descHasIsCached = true → c.isCached = false →
      c.descKind = DescKind.forwardManyToOne →
      c.localRelatedHasNone = false →
      ∀ v, c.agetResult = Option.some v →
        get_model_field_value c =
          { result := Except.ok v
            path := FetchPath.asyncAget
            effects := { setattrValue := Option.some v } }) := by
  constructor
  · intro h
    unfold get_model_field_value
    rcases h with ⟨h1, h2⟩ | h | h
    · simp [h1, h2]
    · by_cases hpk : (c.isRelatedField && c.usePkOnlyOptimization) = true
      · simp [hpk]
      · simp [hpk, h]
    · by_cases hpk : (c.isRelatedField && c.usePkOnlyOptimization) = true
      · simp [hpk]
      · simp [hpk, h]
  · intro hpk hic hcc hk hln v hv
    have hpk' : (c.isRelatedField && c.usePkOnlyOptimization) = false := by
      cases hr : c.isRelatedField <;> cases hu : c.usePkOnlyOptimization <;> simp_all
    unfold get_model_field_value
    simp [hpk', hic, hcc, hk, hln, hv]

/-- C2 witness: the theorem applied to a pk-only related field and to an
uncached forward descriptor with a successful fetch. -/
theorem c2_get_model_field_value_witness :
    get_model_field_value c2ctxDirect =
      { result := Except.ok (Val.int 7)
        path := FetchPath.directGetAttribute
        effects := {} } ∧
    get_model_field_value c2ctxForward =
      { result := Except.ok (Val.obj 5)
        path := FetchPath.asyncAget
        effects := { setattrValue := Option.some (Val.obj 5) } } :=
  ⟨(c2_get_model_field_value c2ctxDirect).1 (Or.inl ⟨rfl, rfl⟩),
   (c2_get_model_field_value c2ctxForward).2 (by decide) rfl rfl rfl rfl (Val.obj 5) rfl⟩

/-- C4: on the uncached branches of `get_model_field_value`, a forward
descriptor whose local related value contains `None` returns `None` when the
field is nullable and raises `RelatedObjectDoesNotExist` otherwise; an
uncached reverse one-to-one descriptor raises `RelatedObjectDoesNotExist`
exactly when the instance pk is `None` or the filtered `aget` finds nothing,
and otherwise returns the fetched related object after caching it on the
related object and on the instance. -/
theorem c4_get_model_field_value_missing (c : FieldCtx)
    (hpk : ¬(c.isRelatedField = true ∧ c.usePkOnlyOptimization = true))
    (hic : c.descHasIsCached = true) (hcc : c.isCached = false) :
    (c.descKind = DescKind.forwardManyToOne → c.localRelatedHasNone = true →
      (c.fieldNull = true →
        get_model_field_value c =
          { result := Except.ok Val.none, path := FetchPath.noFetch, effects := {} }) ∧
      (c.fieldNull = false →
        get_model_field_value c =
          { result := Except.error (PyErr.relatedObjectDoesNotExist
              (c.fieldModelName ++ " has no " ++ c.fieldName ++ "."))
            path := FetchPath.noFetch
            effects := {} })) ∧
    (c.descKind = DescKind.reverseOneToOne →
      ((c.instancePkIsNone = true ∨ c.revAgetResult = Option.none) ↔
        (get_model_field_value c).result =
          Except.error (PyErr.relatedObjectDoesNotExist
            (c.instanceClassName ++ " has no " ++ c.accessorName ++ "."))) ∧
      (∀ v, c.instancePkIsNone = false → c.revAgetResult = Option.some v →
        get_model_field_value c =
          { result := Except.ok v
            path := FetchPath.asyncAget
            effects := { cachedOnRelObj := true
                         revCachedOnInstance := Option.some (Option.some v) } })) := by
  have hpk' : (c.isRelatedField && c.usePkOnlyOptimization) = false := by
    cases hr : c.isRelatedField <;> cases hu : c.usePkOnlyOptimization <;> simp_all
  constructor
  · intro hk hln
    constructor
    · intro hnull
      unfold get_model_field_value
      simp [hpk', hic, hcc, hk, hln, hnull]
    · intro hnull
      unfold get_model_field_value
      simp [hpk', hic, hcc, hk, hln, hnull]
  · intro hk
    constructor
    · constructor
      · intro h
        unfold get_model_field_value
        rcases h with h | h
        · simp [hpk', hic, hcc, hk, h]
        · cases hpkn : c.instancePkIsNone <;> simp [hpk', hic, hcc, hk, hpkn, h]
      · intro h
        by_contra hcon
        push_neg at hcon
        obtain ⟨h1, h2⟩ := hcon
        obtain ⟨v, hv⟩ : ∃ v, c.revAgetResult = Option.some v := by
          cases hra : c.revAgetResult
          · exact absurd hra h2
          · exact ⟨_, rfl⟩
        have h1' : c.instancePkIsNone = false := by
          cases hpkn : c.instancePkIsNone
          · rfl
          · exact absurd hpkn h1
        unfold get_model_field_value at h
        simp [hpk', hic, hcc, hk, h1', hv] at h
    · intro v hpkn hv
      unfold get_model_field_value
      simp [hpk', hic, hcc, hk, hpkn, hv]

/-- C4 witness: the theorem applied to a nullable forward descriptor with a
missing local value and to a reverse one-to-one descriptor with a found
related object. -/
theorem c4_get_model_field_value_missing_witness :
    get_model_field_value c4ctxNullForward =
      { result := Except.ok Val.none, path := FetchPath.noFetch, effects := {} } ∧
    get_model_field_value c4ctxReverse =
      { result := Except.ok (Val.obj 9)
        path := FetchPath.asyncAget
        effects := { cachedOnRelObj := true
                     revCachedOnInstance := Option.some (Option.some (Val.obj 9)) } } :=
  ⟨((c4_get_model_field_value_missing c4ctxNullForward (by decide) rfl rfl).1 rfl rfl).1 rfl,
   ((c4_get_model_field_value_missing c4ctxReverse (by decide) rfl rfl).2 rfl).2
     (Val.obj 9) rfl rfl⟩

/-! ## Serializer.ato_representation (serializers.py lines 358-395) -/

/-- Attribute value fetched for a field: either a Django model instance
(whose `pk` the code inspects and whose identity is `ident`), or a plain
value (possibly `None`). -/
inductive AttrVal where
  | modelInst (pk : Val) (ident : Nat)
  | plain (v : Val)
  deriving Repr, DecidableEq

/-- Embeds `check_for_none = attribute.pk if isinstance(attribute, models.Model)
else attribute` (serializers.py lines 378-380). -/
def check_for_none (a : AttrVal) : Val :=
  match a with
  | AttrVal.modelInst pk _ => pk
  | AttrVal.plain v => v

/-- Which of the three representation paths of `ato_representation` a field
took: the inline synchronous call (SOOP-free field types), the awaited
async-native `ato_representation`, or `to_representation` offloaded through
`sync_to_async`. -/
inductive ReprPath where
  | direct
  | awaitedAto
  | syncOffload
  deriving Repr, DecidableEq

/-- A readable field as inspected by `Serializer.ato_representation`:
* `field_name`: `field.field_name` (asserted non-None in the code);
* `attrResult`: the attribute lookup (`get_model_field_value` for model
  instances, `field.get_attribute` otherwise), which may raise `SkipField`;
* `typeInSoopFree`: `type(field) in SOOP_FREE_DRF_FIELDS`;
* `atoIsCoroutine`: `asyncio.iscoroutinefunction(getattr(field,
  "ato_representation", None))`, i.e. `has_ato_representation(field)`;
* `to_representation` / `ato_representation`: the values those methods
  produce on a given attribute. -/
structure RFieldSpec where
  field_name : String
  attrResult : Except PyErr AttrVal
  typeInSoopFree : Bool
  atoIsCoroutine : Bool
  to_representation : AttrVal → Val
  ato_representation : AttrVal → Val

/-- Embeds the three-way representation dispatch of
`Serializer.ato_representation` (serializers.py lines 386-391). -/
def field_repr (f : RFieldSpec) (attr_ : AttrVal) : ReprPath × Val :=
  if f.typeInSoopFree then (ReprPath.direct, f.to_representation attr_)
  else if f.atoIsCoroutine then (ReprPath.awaitedAto, f.ato_representation attr_)
  else (ReprPath.syncOffload, f.to_representation attr_)

/-- Embeds the field loop of `Serializer.ato_representation` (serializers.py
lines 363-395): fields are processed in order; a `SkipField` from the
attribute lookup omits the field, any other exception propagates; a `None`
attribute (or a model attribute with `None` pk) maps the field name to
`None`; otherwise the field name maps to the dispatched representation. -/
def serializer_ato_representation (fields : List RFieldSpec) :
    Except PyErr (List (String × Option (ReprPath × Val))) :=
  match fields with
  | [] => Except.ok []
  | f :: rest =>
    match f.attrResult with
    | Except.error PyErr.skipField => serializer_ato_representation rest
    | Except.error e => Except.error e
    | Except.ok attr_ =>
      match serializer_ato_representation rest with
      | Except.error e => Except.error e
      | Except.ok tail =>
        if check_for_none attr_ = Val.none then
          Except.ok ((f.field_name, Option.none) :: tail)
        else
          Except.ok ((f.field_name, Option.some (field_repr f attr_)) :: tail)

/-- Contribution of a single field to the ordered result of
`Serializer.ato_representation`: skipped fields contribute nothing, a `None`
(or `None`-pk) attribute contributes `(field_name, None)`, and any other
attribute contributes the dispatched representation. -/
def ato_entry (f : RFieldSpec) : Option (String × Option (ReprPath × Val)) :=
  match f.attrResult with
  | Except.error _ => Option.none
  | Except.ok attr_ =>
    if check_for_none attr_ = Val.none then Option.some (f.field_name, Option.none)
    else Option.some (f.field_name, Option.some (field_repr f attr_))

/-- C3: when every attribute lookup either succeeds or raises `SkipField`,
`Serializer.ato_representation` returns, in field order, one entry per
non-skipped field: `None` for a `None` attribute (or model attribute with
`None` pk), and otherwise the representation computed inline when the field
type is SOOP-free, by awaiting `field.ato_representation` when that
attribute is a coroutine function, and through `sync_to_async` around
`field.to_representation` otherwise. -/
theorem c3_serializer_ato_representation (fields : List RFieldSpec)
    (h : ∀ f ∈ fields,
      (∃ a, f.attrResult = Except.ok a) ∨ f.attrResult = Except.error PyErr.skipField) :
    serializer_ato_representation fields = Except.ok (fields.filterMap ato_entry) ∧
    (∀ (f : RFieldSpec) (a : AttrVal),
      (f.typeInSoopFree = true → field_repr f a = (ReprPath.direct, f.to_representation a)) ∧
      (f.typeInSoopFree = false → f.atoIsCoroutine = true →
        field_repr f a = (ReprPath.awaitedAto, f.ato_representation a)) ∧
      (f.typeInSoopFree = false → f.atoIsCoroutine = false →
        field_repr f a = (ReprPath.syncOffload, f.to_representation a))) := by
  constructor
  · induction fields with
    | nil => simp [serializer_ato_representation]
    | cons f rest ih =>
      have hf := h f (by simp)
      have hrest := ih (fun g hg => h g (List.mem_cons_of_mem f hg))
      rcases hf with ⟨a, ha⟩ | ha
      · by_cases hn : check_for_none a = Val.none
        · simp [serializer_ato_representation, ato_entry, ha, hrest, hn]
        · simp [serializer_ato_representation, ato_entry, ha, hrest, hn]
      · simp [serializer_ato_representation, ato_entry, ha, hrest]
  · intro f a
    refine ⟨fun h1 => ?_, fun h1 h2 => ?_, fun h1 h2 => ?_⟩
    · simp [field_repr, h1]
    · simp [field_repr, h1, h2]
    · simp [field_repr, h1, h2]

/-- Field whose attribute lookup raises `SkipField`. -/
def c3fieldSkip : RFieldSpec :=
  { field_name := "skipped"
    attrResult := Except.error PyErr.skipField
    typeInSoopFree := false
    atoIsCoroutine := false
    to_representation := fun _ => Val.int 0
    ato_representation := fun _ => Val.int 0 }

/-- SOOP-free field with a plain attribute. -/
def c3fieldSoop : RFieldSpec :=
  { field_name := "title"
    attrResult := Except.ok (AttrVal.plain (Val.str "x"))
    typeInSoopFree := true
    atoIsCoroutine := false
    to_representation := fun _ => Val.str "direct"
    ato_representation := fun _ => Val.str "ato" }

/-- Nested field exposing an async-native `ato_representation`. -/
def c3fieldNested : RFieldSpec :=
  { field_name := "nested"
    attrResult := Except.ok (AttrVal.modelInst (Val.int 3) 3)
    typeInSoopFree := false
    atoIsCoroutine := true
    to_representation := fun _ => Val.str "direct"
    ato_representation := fun _ => Val.str "ato" }

/-- Synchronous-only field whose attribute is a model instance with a `None`
pk. -/
def c3fieldNonePk : RFieldSpec :=
  { field_name := "owner"
    attrResult := Except.ok (AttrVal.modelInst Val.none 4)
    typeInSoopFree := false
    atoIsCoroutine := false
    to_representation := fun _ => Val.str "offload"
    ato_representation := fun _ => Val.str "ato" }

/-- Synchronous-only field with an ordinary attribute. -/
def c3fieldSync : RFieldSpec :=
  { field_name := "legacy"
    attrResult := Except.ok (AttrVal.plain (Val.int 8))
    typeInSoopFree := false
    atoIsCoroutine := false
    to_representation := fun _ => Val.str "offload"
    ato_representation := fun _ => Val.str "ato" }

/-- C3 witness: the theorem applied to a concrete field list covering a
skipped field, the three dispatch paths and a `None`-pk attribute, keeping
field order. -/
theorem c3_serializer_ato_representation_witness :
    serializer_ato_representation
      [c3fieldSkip, c3fieldSoop, c3fieldNested, c3fieldNonePk, c3fieldSync] =
    Except.ok
      [("title", Option.some (ReprPath.direct, Val.str "direct")),
       ("nested", Option.some (ReprPath.awaitedAto, Val.str "ato")),
       ("owner", Option.none),
       ("legacy", Option.some (ReprPath.syncOffload, Val.str "offload"))] := by
  have h := (c3_serializer_ato_representation
    [c3fieldSkip, c3fieldSoop, c3fieldNested, c3fieldNonePk, c3fieldSync]
    (by
      intro f hf
      simp only [List.mem_cons, List.not_mem_nil, or_false] at hf
      rcases hf with rfl | rfl | rfl | rfl | rfl
      · exact Or.inr rfl
      · exact Or.inl ⟨_, rfl⟩
      · exact Or.inl ⟨_, rfl⟩
      · exact Or.inl ⟨_, rfl⟩
      · exact Or.inl ⟨_, rfl⟩)).1
  rw [h]
  rfl

/-! ## ListSerializer.ato_representation (serializers.py lines 398-432) -/

/-- Input to `ListSerializer.ato_representation`: a Django `Manager`, a
`QuerySet`, or any other iterable, each carrying its underlying items in
iteration order. -/
inductive ListData where
  | manager (xs : List Val)
  | queryset (xs : List Val)
  | plain (xs : List Val)
  deriving Repr, DecidableEq

/-- Items of the data in iteration order (`data.all()` on a `Manager` yields
the queryset over the same items). -/
def ListData.items : ListData → List Val
  | ListData.manager xs => xs
  | ListData.queryset xs => xs
  | ListData.plain xs => xs

/-- The child serializer as inspected by `ListSerializer.ato_representation`:
`atoIsCoroutine` is `has_ato_representation(self.child)`, and the two
functions give the values produced by the child on one item. -/
structure ChildSpec where
  atoIsCoroutine : Bool
  ato_representation : Val → Val
  to_representation : Val → Val

/-- Result of `ListSerializer.ato_representation`: whether the items were
consumed with `async for` and the per-item representations in order, each
tagged with the path that produced it. -/
structure ListReprOut where
  usedAsyncIter : Bool
  items : List (ReprPath × Val)
  deriving Repr, DecidableEq

/-- Embeds `ListSerializer.ato_representation` (serializers.py lines
398-432): a `Manager` is first replaced by `data.all()`; then the child
dispatch (`has_ato_representation(self.child)`) picks awaited
`child.ato_representation` or offloaded `child.to_representation`, and a
`QuerySet` is consumed with `async for` while anything else uses a plain
`for`. -/
def list_ato_representation (child : ChildSpec) (data0 : ListData) : ListReprOut :=
  let data := match data0 with
    | ListData.manager xs => ListData.queryset xs
    | d => d
  if child.atoIsCoroutine then
    match data with
    | ListData.queryset xs =>
      { usedAsyncIter := true
        items := xs.map (fun item => (ReprPath.awaitedAto, child.ato_representation item)) }
    | d =>
      { usedAsyncIter := false
        items := d.items.map (fun item => (ReprPath.awaitedAto, child.ato_representation item)) }
  else
    match data with
    | ListData.queryset xs =>
      { usedAsyncIter := true
        items := xs.map (fun item => (ReprPath.syncOffload, child.to_representation item)) }
    | d =>
      { usedAsyncIter := false
        items := d.items.map (fun item => (ReprPath.syncOffload, child.to_representation item)) }

/-- C5: `ListSerializer.ato_representation` treats a `Manager` exactly as the
queryset `data.all()` over the same items; it returns the per-item
representations in iteration order, awaiting `child.ato_representation` when
the child exposes a coroutine `ato_representation` and offloading
`child.to_representation` through `sync_to_async` otherwise; and it iterates
asynchronously exactly on querysets (including those obtained from a
`Manager`). -/
theorem c5_list_ato_representation (child : ChildSpec) (d : ListData) (xs : List Val) :
    list_ato_representation child (ListData.manager xs) =
      list_ato_representation child (ListData.queryset xs) ∧
    (list_ato_representation child d).items =
      d.items.map (fun item =>
        if child.atoIsCoroutine then (ReprPath.awaitedAto, child.ato_representation item)
        else (ReprPath.syncOffload, child.to_representation item)) ∧
    (list_ato_representation child d).usedAsyncIter =
      (match d with
       | ListData.manager _ => true
       | ListData.queryset _ => true
       | ListData.plain _ => false) := by
  refine ⟨?_, ?_, ?_⟩
  · cases hc : child.atoIsCoroutine <;>
      simp [list_ato_representation, hc]
  · cases d <;> cases hc : child.atoIsCoroutine <;>
      simp [list_ato_representation, ListData.items, hc]
  · cases d <;> cases hc : child.atoIsCoroutine <;>
      simp [list_ato_representation, hc]

/-! ## Mixin perform-hook dispatch (adrf/mixins.py lines 26-40, 94-110,
135-148)

Each of `CreateModelMixin.create`, `UpdateModelMixin.update` and
`DestroyModelMixin.destroy` dispatches its hook the same way: await the hook
when `asyncio.iscoroutinefunction` says it is a coroutine function, and
otherwise run it through `sync_to_async`, warning unless the corresponding
`use_sync_perform_*` attribute is true on the view. -/

/-- What a mixin method inspects before dispatching its perform hook:
whether the hook is a coroutine function, the truthiness of the view
attribute `use_sync_perform_create` / `use_sync_perform_update` /
`use_sync_perform_destroy`, and the view class name used in the warning. -/
structure PerformCtx where
  performIsCoroutine : Bool
  useSyncFlag : Bool
  viewClassName : String
  deriving Repr, DecidableEq

/-- Outcome of a perform-hook dispatch: the path taken and the
`PendingDeprecationWarning` message, when one was issued. -/
structure PerformOut where
  path : CallPath
  warning : Option String
  deriving Repr, DecidableEq

/-- Embeds the `perform_create` dispatch of `CreateModelMixin.create`
(mixins.py lines 29-37). -/
def create_perform_dispatch (c : PerformCtx) : PerformOut :=
  if c.performIsCoroutine then
    { path := CallPath.asyncNative, warning := Option.none }
  else
    { path := CallPath.syncOffload
      warning :=
        if c.useSyncFlag then Option.none
        else Option.some ("Non async perform_create(): " ++ c.viewClassName) }

/-- Embeds the `perform_update` dispatch of `UpdateModelMixin.update`
(mixins.py lines 102-110). -/
def update_perform_dispatch (c : PerformCtx) : PerformOut :=
  if c.performIsCoroutine then
    { path := CallPath.asyncNative, warning := Option.none }
  else
    { path := CallPath.syncOffload
      warning :=
        if c.useSyncFlag then Option.none
        else Option.some ("Non async perform_update(): " ++ c.viewClassName) }

/-- Embeds the `perform_destroy` dispatch of `DestroyModelMixin.destroy`
(mixins.py lines 140-148). -/
def destroy_perform_dispatch (c : PerformCtx) : PerformOut :=
  if c.performIsCoroutine then
    { path := CallPath.asyncNative, warning := Option.none }
  else
    { path := CallPath.syncOffload
      warning :=
        if c.useSyncFlag then Option.none
        else Option.some ("Non async perform_destroy(): " ++ c.viewClassName) }

/-- C6: in each of the three mixin methods, a coroutine perform hook is
awaited directly with no warning; a non-coroutine hook runs through
`sync_to_async`, and a `PendingDeprecationWarning` naming the view class is
issued exactly when the corresponding `use_sync_perform_*` attribute is not
true on the view. -/
theorem c6_perform_dispatch (c : PerformCtx) :
    (create_perform_dispatch c).path =
      (if c.performIsCoroutine then CallPath.asyncNative else CallPath.syncOffload) ∧
    (create_perform_dispatch c).warning =
      (if c.performIsCoroutine || c.useSyncFlag then Option.none
       else Option.some ("Non async perform_create(): " ++ c.viewClassName)) ∧
    (update_perform_dispatch c).path =
      (if c.performIsCoroutine then CallPath.asyncNative else CallPath.syncOffload) ∧
    (update_perform_dispatch c).warning =
      (if c.performIsCoroutine || c.useSyncFlag then Option.none
       else Option.some ("Non async perform_update(): " ++ c.viewClassName)) ∧
    (destroy_perform_dispatch c).path =
      (if c.performIsCoroutine then CallPath.asyncNative else CallPath.syncOffload) ∧
    (destroy_perform_dispatch c).warning =
      (if c.performIsCoroutine || c.useSyncFlag then Option.none
       else Option.some ("Non async perform_destroy(): " ++ c.viewClassName)) := by
  cases hp : c.performIsCoroutine <;> cases hs : c.useSyncFlag <;>
    simp [create_perform_dispatch, update_perform_dispatch, destroy_perform_dispatch, hp, hs]

/-! ## BaseSerializer.asave (serializers.py lines 234-271) -/

/-- Serializer state inspected and mutated by `BaseSerializer.asave`:
`hasErrorsAttr` is `hasattr(self, "_errors")`, `errorsTruthy` the truthiness
of `self.errors`, `hasDataAttr` is `hasattr(self, "_data")`,
`validated_data` is `self.validated_data`, and `inst` is `self.instance`. -/
structure SaveState where
  hasErrorsAttr : Bool
  errorsTruthy : Bool
  hasDataAttr : Bool
  validated_data : List (String × Val)
  inst : Option Val
  deriving Repr, DecidableEq

/-- Results of the overridable async hooks awaited by `asave`:
`Option.none` models a hook that returned `None`. -/
structure SaveHooks where
  aupdate : Val → List (String × Val) → Option Val
  acreate : List (String × Val) → Option Val

/-- Embeds the Python dict merge `{**a, **b}`: keys of `a` in order with
values overridden by `b`, followed by the keys of `b` not in `a`. -/
def dict_merge (a b : List (String × Val)) : List (String × Val) :=
  a.map (fun kv =>
    match b.find? (fun kv2 => kv2.1 == kv.1) with
    | Option.some kv2 => (kv.1, kv2.2)
    | Option.none => kv) ++
  b.filter (fun kv2 => !(a.any (fun kv => kv.1 == kv2.1)))

/-- Embeds `BaseSerializer.asave` (serializers.py lines 234-271): the four
guard assertions, the merge of `validated_data` with the keyword arguments,
the dispatch to `aupdate` or `acreate` on `self.instance`, the assignment of
the returned object to `self.instance` and the assertion that it is not
`None` (note the assignment happens before that assertion). -/
def base_asave (hooks : SaveHooks) (st : SaveState) (kwargs : List (String × Val)) :
    Except PyErr Val × SaveState :=
  if !st.hasErrorsAttr then
    (Except.error (PyErr.assertionError
      "You must call is_valid before calling asave."), st)
  else if st.errorsTruthy then
    (Except.error (PyErr.assertionError
      "You cannot call asave on a serializer with invalid data."), st)
  else if kwargs.any (fun kv => kv.1 == "commit") then
    (Except.error (PyErr.assertionError
      "commit is not a valid keyword argument to the asave method."), st)
  else if st.hasDataAttr then
    (Except.error (PyErr.assertionError
      "If you need to access data before committing to the database then inspect validated_data instead."), st)
  else
    let validated := dict_merge st.validated_data kwargs
    match st.inst with
    | Option.some obj =>
      match hooks.aupdate obj validated with
      | Option.some updated =>
        (Except.ok updated, { st with inst := Option.some updated })
      | Option.none =>
        (Except.error (PyErr.assertionError
          "aupdate did not return an object instance."),
         { st with inst := Option.none })
    | Option.none =>
      match hooks.acreate validated with
      | Option.some created =>
        (Except.ok created, { st with inst := Option.some created })
      | Option.none =>
        (Except.error (PyErr.assertionError
          "acreate did not return an object instance."),
         { st with inst := Option.none })

/-- C8: `asave` raises `AssertionError` with the serializer state unchanged
whenever `_errors` is absent, or there are validation errors, or a `commit`
keyword argument is passed, or `_data` is present; otherwise it awaits
`aupdate(self.instance, merged)` when `self.instance` is not `None` and
`acreate(merged)` when it is, with `merged` the validated data updated by
the keyword arguments, stores the returned object in `self.instance` and
returns it; a hook returning `None` trips the not-`None` assertion after the
assignment. -/
theorem c8_base_asave (hooks : SaveHooks) (st : SaveState) (kwargs : List (String × Val)) :
    (st.hasErrorsAttr = false ∨ st.errorsTruthy = true ∨
        kwargs.any (fun kv => kv.1 == "commit") = true ∨ st.hasDataAttr = true →
      ∃ m, base_asave hooks st kwargs = (Except.error (PyErr.assertionError m), st)) ∧
    (st.hasErrorsAttr = true → st.errorsTruthy = false →
      kwargs.any (fun kv => kv.1 == "commit") = false → st.hasDataAttr = false →
      (∀ obj v, st.inst = Option.some obj →
        hooks.aupdate obj (dict_merge st.validated_data kwargs) = Option.some v →
        base_asave hooks st kwargs = (Except.ok v, { st with inst := Option.some v })) ∧
      (∀ v, st.inst = Option.none →
        hooks.acreate (dict_merge st.validated_data kwargs) = Option.some v →
        base_asave hooks st kwargs = (Except.ok v, { st with inst := Option.some v })) ∧
      (∀ obj, st.inst = Option.some obj →
        hooks.aupdate obj (dict_merge st.validated_data kwargs) = Option.none →
        ∃ m, base_asave hooks st kwargs =
          (Except.error (PyErr.assertionError m), { st with inst := Option.none })) ∧
      (st.inst = Option.none →
        hooks.acreate (dict_merge st.validated_data kwargs) = Option.none →
        ∃ m, base_asave hooks st kwargs =
          (Except.error (PyErr.assertionError m), { st with inst := Option.none }))) := by
  constructor
  · intro h
    by_cases h1 : st.hasErrorsAttr
    · by_cases h2 : st.errorsTruthy
      · exact ⟨"You cannot call asave on a serializer with invalid data.",
          by simp [base_asave, h1, h2]⟩
      · by_cases h3 : kwargs.any (fun kv => kv.1 == "commit")
        · exact ⟨"commit is not a valid keyword argument to the asave method.",
            by simp [base_asave, h1, h2, h3]⟩
        · by_cases h4 : st.hasDataAttr
          · exact ⟨"If you need to access data before committing to the database then inspect validated_data instead.",
              by simp [base_asave, h1, h2, h3, h4]⟩
          · rcases h with h | h | h | h <;> simp_all
    · exact ⟨"You must call is_valid before calling asave.",
        by simp [base_asave, h1]⟩
  · intro h1 h2 h3 h4
    refine ⟨?_, ?_, ?_, ?_⟩
    · intro obj v hinst hup
      simp [base_asave, h1, h2, h3, h4, hinst, hup]
    · intro v hinst hcr
      simp [base_asave, h1, h2, h3, h4, hinst, hcr]
    · intro obj hinst hup
      exact ⟨"aupdate did not return an object instance.",
        by simp [base_asave, h1, h2, h3, h4, hinst, hup]⟩
    · intro hinst hcr
      exact ⟨"acreate did not return an object instance.",
        by simp [base_asave, h1, h2, h3, h4, hinst, hcr]⟩

/-- Valid post-`is_valid` serializer state with no instance. -/
def c8state : SaveState :=
  { hasErrorsAttr := true
    errorsTruthy := false
    hasDataAttr := false
    validated_data := [("a", Val.int 1)]
    inst := Option.none }

/-- Hooks whose `acreate` returns a fresh object and whose `aupdate` echoes
the given object. -/
def c8hooks : SaveHooks :=
  { aupdate := fun obj _ => Option.some obj
    acreate := fun _ => Option.some (Val.obj 1) }

/-- C8 witness: the theorem applied to a valid state with no instance and a
keyword argument, taking the `acreate` path and storing the created object. -/
theorem c8_base_asave_witness :
    base_asave c8hooks c8state [("b", Val.int 2)] =
      (Except.ok (Val.obj 1), { c8state with inst := Option.some (Val.obj 1) }) :=
  ((c8_base_asave c8hooks c8state [("b", Val.int 2)]).2 rfl rfl rfl rfl).2.1
    (Val.obj 1) rfl rfl

/-! ## BaseSerializer.adata (serializers.py lines 201-223) -/

/-- Serializer state inspected and mutated by `BaseSerializer.adata`:
`hasInitialData` is `hasattr(self, "initial_data")`, `hasValidatedData` is
`hasattr(self, "_validated_data")`, `dataAttr` is the cached `_data` when
present, `inst` is `self.instance`, and `errorsTruthy` the truthiness of
`getattr(self, "_errors", None)`. -/
structure DataState where
  hasInitialData : Bool
  hasValidatedData : Bool
  dataAttr : Option Val
  inst : Option Val
  errorsTruthy : Bool
  deriving Repr, DecidableEq

/-- Values `adata` can draw from: `ato_representation` applied to an object,
`self.validated_data`, and `self.get_initial()`. -/
structure DataHooks where
  ato_representation : Val → Val
  validated_value : Val
  initial_value : Val

/-- Value computed on the first (uncached) pass of `adata`:
`ato_representation(instance)` when the instance is not `None` and there are
no errors, else `ato_representation(validated_data)` when `_validated_data`
is present and there are no errors, else `get_initial()` (serializers.py
lines 214-221). -/
def adata_first_value (h : DataHooks) (st : DataState) : Val :=
  match st.inst, st.errorsTruthy with
  | Option.some obj, false => h.ato_representation obj
  | _, _ =>
    if st.hasValidatedData && !st.errorsTruthy then h.ato_representation h.validated_value
    else h.initial_value

/-- Result of one `adata` evaluation: the value or exception, the serializer
state afterwards, and whether the representation branch actually ran
(`computed = false` means the cached `_data` was returned). -/
structure AdataOut where
  result : Except PyErr Val
  state : DataState
  computed : Bool
  deriving Repr, DecidableEq

/-- Embeds `BaseSerializer.adata` (serializers.py lines 201-223): assert
that `is_valid` ran when `initial_data` was supplied; compute and cache
`_data` when absent; return `_data`. -/
def base_adata (h : DataHooks) (st : DataState) : AdataOut :=
  if st.hasInitialData && !st.hasValidatedData then
    { result := Except.error (PyErr.assertionError
        "When a serializer is passed a data keyword argument you must call is_valid before attempting to access the serialized data representation.")
      state := st
      computed := false }
  else
    match st.dataAttr with
    | Option.some v => { result := Except.ok v, state := st, computed := false }
    | Option.none =>
      let v := adata_first_value h st
      { result := Except.ok v
        state := { st with dataAttr := Option.some v }
        computed := true }

/-- C9: `adata` raises `AssertionError` when `initial_data` was supplied but
`is_valid` has not run; on an uncached state it computes `adata_first_value`
(the instance representation, else the validated-data representation, else
`get_initial`), stores it in `_data` and returns it; and it is idempotent
through that cache: after any successful evaluation, evaluating again
returns the same value with the same state and no recomputation. -/
theorem c9_base_adata (h : DataHooks) (st : DataState) :
    (st.hasInitialData = true → st.hasValidatedData = false →
      base_adata h st =
        { result := Except.error (PyErr.assertionError
            "When a serializer is passed a data keyword argument you must call is_valid before attempting to access the serialized data representation.")
          state := st
          computed := false }) ∧
    (¬(st.hasInitialData = true ∧ st.hasValidatedData = false) →
      st.dataAttr = Option.none →
      base_adata h st =
        { result := Except.ok (adata_first_value h st)
          state := { st with dataAttr := Option.some (adata_first_value h st) }
          computed := true }) ∧
    (∀ v, ¬(st.hasInitialData = true ∧ st.hasValidatedData = false) →
      st.dataAttr = Option.some v →
      base_adata h st = { result := Except.ok v, state := st, computed := false }) ∧
    (∀ v st' c, base_adata h st = { result := Except.ok v, state := st', computed := c } →
      base_adata h st' = { result := Except.ok v, state := st', computed := false }) := by
  have hbool : ∀ (p q : Bool), ¬(p = true ∧ q = false) → (p && !q) = false := by
    intro p q hpq
    cases p <;> cases q <;> simp_all
  refine ⟨?_, ?_, ?_, ?_⟩
  · intro h1 h2
    simp [base_adata, h1, h2]
  · intro hA hd
    simp [base_adata, hbool _ _ hA, hd]
  · intro v hA hd
    simp [base_adata, hbool _ _ hA, hd]
  · intro v st' c heq
    by_cases hA : (st.hasInitialData && !st.hasValidatedData) = true
    · simp [base_adata, hA] at heq
    · rw [Bool.not_eq_true] at hA
      cases hd : st.dataAttr with
      | some w =>
        rw [base_adata, hA] at heq
        simp only [Bool.false_eq_true, if_false, hd, AdataOut.mk.injEq] at heq
        obtain ⟨hv, hst, _⟩ := heq
        subst hst
        cases hv
        simp [base_adata, hA, hd]
      | none =>
        rw [base_adata, hA] at heq
        simp only [Bool.false_eq_true, if_false, hd, AdataOut.mk.injEq] at heq
        obtain ⟨hv, hst, _⟩ := heq
        subst hst
        cases hv
        simp [base_adata, hA]

/-- Uncached serializer state with an instance and no errors. -/
def c9state : DataState :=
  { hasInitialData := true
    hasValidatedData := true
    dataAttr := Option.none
    inst := Option.some (Val.obj 2)
    errorsTruthy := false }

/-- Hooks rendering any object to a fixed string. -/
def c9hooks : DataHooks :=
  { ato_representation := fun _ => Val.str "rendered"
    validated_value := Val.int 0
    initial_value := Val.int 9 }

/-- C9 witness: the theorem applied to an uncached validated state: the
first evaluation computes and caches the instance representation, and the
idempotence clause applied to that run yields the cached second evaluation. -/
theorem c9_base_adata_witness :
    base_adata c9hooks c9state =
      { result := Except.ok (Val.str "rendered")
        state := { c9state with dataAttr := Option.some (Val.str "rendered") }
        computed := true } ∧
    base_adata c9hooks { c9state with dataAttr := Option.some (Val.str "rendered") } =
      { result := Except.ok (Val.str "rendered")
        state := { c9state with dataAttr := Option.some (Val.str "rendered") }
        computed := false } := by
  have h1 := (c9_base_adata c9hooks c9state).2.1 (by decide) rfl
  refine ⟨h1, ?_⟩
  exact (c9_base_adata c9hooks c9state).2.2.2 (Val.str "rendered")
    { c9state with dataAttr := Option.some (Val.str "rendered") } true h1

/-! ## ListSerializer.aupdate (serializers.py lines 463-470) -/

/-- Embeds `ListSerializer.aupdate`: it unconditionally raises
`NotImplementedError` (serializers with `many=True` do not support multiple
update by default). -/
def list_aupdate (_inst _validated : Val) : Except PyErr Val :=
  Except.error PyErr.notImplementedError

/-- C10: for every instance and every validated data, awaiting
`ListSerializer.aupdate` raises `NotImplementedError`. -/
theorem c10_list_aupdate (inst validated : Val) :
    list_aupdate inst validated = Except.error PyErr.notImplementedError := rfl

/-! ## Public API surface of the serializer and mixin classes
(adrf/serializers.py and adrf/mixins.py) -/

/-- One method of a public class of the repository: defining class, method
name, and whether it is declared `async def` (or as an async property). -/
structure PyMethod where
  cls : String
  name : String
  isAsync : Bool
  deriving Repr, DecidableEq

/-- Methods defined by the public serializer classes of adrf/serializers.py
and the mixin classes of adrf/mixins.py, transcribed declaration by
declaration. -/
def adrf_class_methods : List PyMethod :=
  [ { cls := "BaseSerializer", name := "many_init", isAsync := false },
    { cls := "BaseSerializer", name := "adata", isAsync := true },
    { cls := "BaseSerializer", name := "ato_representation", isAsync := true },
    { cls := "BaseSerializer", name := "aupdate", isAsync := true },
    { cls := "BaseSerializer", name := "acreate", isAsync := true },
    { cls := "BaseSerializer", name := "asave", isAsync := true },
    { cls := "Serializer", name := "adata", isAsync := true },
    { cls := "Serializer", name := "ato_representation", isAsync := true },
    { cls := "ListSerializer", name := "ato_representation", isAsync := true },
    { cls := "ListSerializer", name := "asave", isAsync := true },
    { cls := "ListSerializer", name := "aupdate", isAsync := true },
    { cls := "ListSerializer", name := "adata", isAsync := true },
    { cls := "ListSerializer", name := "acreate", isAsync := true },
    { cls := "ModelSerializer", name := "acreate", isAsync := true },
    { cls := "ModelSerializer", name := "aupdate", isAsync := true },
    { cls := "CreateModelMixin", name := "create", isAsync := true },
    { cls := "CreateModelMixin", name := "perform_create", isAsync := true },
    { cls := "CreateModelMixin", name := "get_success_headers", isAsync := false },
    { cls := "ListModelMixin", name := "list", isAsync := true },
    { cls := "RetrieveModelMixin", name := "retrieve", isAsync := true },
    { cls := "UpdateModelMixin", name := "update", isAsync := true },
    { cls := "UpdateModelMixin", name := "perform_update", isAsync := true },
    { cls := "UpdateModelMixin", name := "partial_update", isAsync := true },
    { cls := "DestroyModelMixin", name := "destroy", isAsync := true },
    { cls := "DestroyModelMixin", name := "perform_destroy", isAsync := true } ]

/-- C7 counterexample: the claim lists `alist`, `aretrieve` and `adestroy`
among the provided operation names, but no class of the repository defines a
method under any of those names (the mixins name their asynchronous view
operations `list`, `retrieve`, `destroy`). -/
theorem c7_async_api_cex :
    (adrf_class_methods.any (fun m => m.name == "alist")) = false ∧
    (adrf_class_methods.any (fun m => m.name == "aretrieve")) = false ∧
    (adrf_class_methods.any (fun m => m.name == "adestroy")) = false := by
  decide

/-- C7 (amended): the serializer classes provide asynchronous operations
named `acreate`, `aupdate`, `adata`, `asave` and `ato_representation`, and
the mixin classes provide the asynchronous view counterparts under the
unprefixed names `create`, `list`, `retrieve`, `update` and `destroy`; no
class defines `alist`, `aretrieve` or `adestroy`. -/
theorem c7_async_api :
    (["acreate", "aupdate", "adata", "asave", "ato_representation"].all
      (fun n => adrf_class_methods.any
        (fun m => m.isAsync && m.name == n &&
          (m.cls == "BaseSerializer" || m.cls == "Serializer" ||
           m.cls == "ListSerializer" || m.cls == "ModelSerializer")))) = true ∧
    (["create", "list", "retrieve", "update", "destroy"].all
      (fun n => adrf_class_methods.any
        (fun m => m.isAsync && m.name == n &&
          (m.cls == "CreateModelMixin" || m.cls == "ListModelMixin" ||
           m.cls == "RetrieveModelMixin" || m.cls == "UpdateModelMixin" ||
           m.cls == "DestroyModelMixin")))) = true ∧
    (["alist", "aretrieve", "adestroy"].all
      (fun n => adrf_class_methods.all (fun m => m.name != n))) = true := by
  decide

end Adrf
